import Mathlib

/-
Shallow embedding of the Stream event-coalescing engine of
src/samsara/streams/_Stream.js.

The Resolution Strategy (createResolveStrategy) is modelled as an explicit
state machine: the closure variables of createResolveStrategy become the
fields of RState, the event-handler registrations become the cases of a
step function on incoming events, and every emission on the Stream output
is collected into an explicit output list.  Payloads are modelled as Int
(they are opaque in the source).  The optional per-kind transform map
(the constructor argument named triggers in the source) is modelled by
the Triggers structure.
-/

/-- Semantic event kinds, the EVENTS table of the source
(set / start / update / end). -/
inductive Kind
  | set
  | start
  | update
  | end_
  deriving DecidableEq, BEq, Repr

/-- The value of the closure variable states.prev: the last kind this
Stream emitted, initially the empty string (written here as nothing). -/
inductive Prev
  | nothing
  | set
  | start
  | update
  | end_
  deriving DecidableEq, BEq, Repr

/-- An emission on the Stream's output: a semantic event with payload,
or one of the two control signals lockBelow / unlockBelow. -/
inductive Out
  | sem (k : Kind) (d : Int)
  | lock
  | unlock
  deriving DecidableEq, BEq, Repr

/-- Incoming events handled by the Resolution Strategy: a raw semantic
event from an upstream source, a lockBelow / unlockBelow control signal
from a downstream Stream, and the two global clock signals. -/
inductive InEv
  | raw (k : Kind) (d : Int)
  | lockBelow
  | unlockBelow
  | tick
  | endTick
  deriving DecidableEq, BEq, Repr

/-- The closure state of createResolveStrategy in the source:
hasTicked, startCounter, hasSentLock, hasReceived, locked, lockCounter,
the states record (set / start / update / end / prev) and the cache
variable (the most recent payload; initially undefined in the source,
modelled as 0 — it is only read after hasReceived is set). -/
structure RState where
  hasTicked : Bool
  startCounter : Int
  hasSentLock : Bool
  hasReceived : Bool
  locked : Bool
  lockCounter : Int
  set : Bool
  start : Bool
  update : Bool
  end_ : Bool
  prev : Prev
  cache : Int
  deriving DecidableEq, Repr

/-- The state created on entry to createResolveStrategy. -/
def initR : RState :=
  { hasTicked := false
    startCounter := 0
    hasSentLock := false
    hasReceived := false
    locked := false
    lockCounter := 0
    set := false
    start := false
    update := false
    end_ := false
    prev := Prev.nothing
    cache := 0 }

/-- The optional per-kind transform map supplied at construction
(the triggers argument of the source). -/
structure Triggers where
  set : Option (Int → Int)
  start : Option (Int → Int)
  update : Option (Int → Int)
  end_ : Option (Int → Int)

/-- A Stream constructed with no transform map. -/
def tr0 : Triggers := ⟨none, none, none, none⟩

/-- if (triggers && triggers.k) data = triggers.k(data) -/
def applyTr (f : Option (Int → Int)) (d : Int) : Int :=
  match f with
  | some g => g d
  | none => d

/-- The first if-chain of the resolve function (lines 142-155 of the
source): the chain beginning with the update-and-end-in-one-tick case. -/
def chain1 (st0 : RState) (d : Int) : List Out × RState :=
  if st0.startCounter == 0 && st0.update && st0.end_ then
    ([Out.sem Kind.update d], { st0 with prev := Prev.update, update := false })
  else if st0.prev == Prev.start && st0.set then
    ([], { st0 with set := false })
  else if st0.prev != Prev.update && st0.start && st0.update then
    ([Out.sem Kind.start d], { st0 with prev := Prev.start })
  else ([], st0)

/-- The second if-chain of the resolve function (lines 157-175 of the
source): the chain beginning with the update-or-transient-sequence
case, evaluated on the state left by the first chain. -/
def chain2 (st1 : RState) (d : Int) : List Out × RState :=
  if st1.update || (st1.start && st1.end_) then
    ([Out.sem Kind.update d], { st1 with prev := Prev.update })
  else if st1.prev != Prev.update && st1.start && !st1.end_ then
    ([Out.sem Kind.start d], { st1 with prev := Prev.start })
  else if st1.startCounter == 0 && st1.prev != Prev.start && st1.end_ && !st1.start then
    ([Out.sem Kind.end_ d], { st1 with prev := Prev.end_ })
  else if st1.prev != Prev.update && st1.set then
    ([Out.sem Kind.set d], { st1 with prev := Prev.set })
  else ([], st1)

/-- The resolve function of createResolveStrategy (lines 136-182 of the
source), as a pure function from the current state and the payload to
the list of emissions and the next state.  The source body first sends
the pending unlockBelow, then evaluates two separate if-chains in
sequence (they are independent if-statements in the source, not one
else-if ladder, so a single invocation can emit twice), and finally
resets the four pending flags unconditionally. -/
def resolve (st : RState) (d : Int) : List Out × RState :=
  let p0 : List Out × RState :=
    if st.hasSentLock then ([Out.unlock], { st with hasSentLock := false })
    else ([], st)
  let c1 := chain1 p0.2 d
  let c2 := chain2 c1.2 d
  (p0.1 ++ c1.1 ++ c2.1,
   { c2.2 with start := false, update := false, end_ := false, set := false })

/-- The delay function (lines 185-197): cache the payload, mark input
received, send lockBelow once per accumulation phase, and resolve
immediately when not locked and the clock already ticked this cycle.
The third component counts how many times resolve was invoked. -/
def delay (st : RState) (d : Int) : List Out × RState × Nat :=
  let sa := { st with cache := d, hasReceived := true }
  let p : List Out × RState :=
    if !sa.hasSentLock then ([Out.lock], { sa with hasSentLock := true })
    else ([], sa)
  if !p.2.locked && p.2.hasTicked then
    let r := resolve p.2 d
    (p.1 ++ r.1, r.2, 1)
  else (p.1, p.2, 0)

/-- One incoming event processed by the Resolution Strategy's handlers
(lines 199-247): the four raw-event handlers apply the transform, set
the pending flag (adjusting startCounter for start / end) and call
delay; lockBelow / unlockBelow maintain lockCounter and locked; tick
resolves the cached payload when not locked and input is pending;
end tick clears the per-cycle flags.  The Nat counts resolve
invocations during the step. -/
def step (tr : Triggers) (st : RState) : InEv → List Out × RState × Nat
  | InEv.raw Kind.set d =>
      delay { st with set := true } (applyTr tr.set d)
  | InEv.raw Kind.start d =>
      delay { st with start := true, startCounter := st.startCounter + 1 }
        (applyTr tr.start d)
  | InEv.raw Kind.update d =>
      delay { st with update := true } (applyTr tr.update d)
  | InEv.raw Kind.end_ d =>
      delay { st with end_ := true, startCounter := st.startCounter - 1 }
        (applyTr tr.end_ d)
  | InEv.lockBelow =>
      ([], { st with lockCounter := st.lockCounter + 1, locked := true }, 0)
  | InEv.unlockBelow =>
      let c := st.lockCounter - 1
      ([], { st with lockCounter := c, locked := if c == 0 then false else st.locked }, 0)
  | InEv.tick =>
      let sa := { st with hasTicked := true }
      if !sa.locked && sa.hasReceived then
        let r := resolve sa sa.cache
        (r.1, r.2, 1)
      else ([], sa, 0)
  | InEv.endTick =>
      ([], { st with hasTicked := false, hasReceived := false }, 0)

/-- Run a list of incoming events through the Resolution Strategy,
concatenating emissions and summing resolve invocations. -/
def run (tr : Triggers) (st : RState) : List InEv → List Out × RState × Nat
  | [] => ([], st, 0)
  | i :: is =>
      let p := step tr st i
      let q := run tr p.2.1 is
      (p.1 ++ q.1, q.2.1, p.2.2 + q.2.2)

/-- The semantic (composite) events among a list of emissions, with
their payloads; control signals are dropped. -/
def semOut : List Out → List (Kind × Int)
  | [] => []
  | Out.sem k d :: rest => (k, d) :: semOut rest
  | Out.lock :: rest => semOut rest
  | Out.unlock :: rest => semOut rest

/-- Number of lockBelow emissions in a list. -/
def countLock : List Out → Nat
  | [] => 0
  | Out.lock :: rest => countLock rest + 1
  | _ :: rest => countLock rest

/-- Number of unlockBelow emissions in a list. -/
def countUnlock : List Out → Nat
  | [] => 0
  | Out.unlock :: rest => countUnlock rest + 1
  | _ :: rest => countUnlock rest

/-
Stream-level embedding: subscription bookkeeping, strategy switching and
the synthetic start / end triggers (lines 253-289 of the source).
The publish/subscribe channel (EventHandler) is not part of src/, so its
subscribe / unsubscribe list bookkeeping is modelled from the spec.
-/

/-- An upstream source: an identity, the _isActive flag and the value
returned by get(). -/
structure Source where
  id : Nat
  isActive : Bool
  get : Int
  deriving DecidableEq, Repr

/-- The strategy currently installed on a Stream: Simple Relay, or the
Resolution Strategy with its closure state. -/
inductive Strategy
  | simple
  | resolveStrat (rst : RState)
  deriving DecidableEq, Repr

/-- A Stream's externally relevant state: the _numSources counter, the
ordered upstream registration list of its input channel, the installed
strategy, and a count of the handlers this Stream has registered on the
global clock for its tick and end tick signals. -/
structure StreamSt where
  numSources : Int
  upstream : List Source
  strat : Strategy
  tickHandlers : Nat
  endTickHandlers : Nat
  deriving DecidableEq, Repr

/-- A freshly constructed Stream: the constructor installs the Simple
Relay strategy and no clock handlers are registered. -/
def emptyStream : StreamSt :=
  { numSources := 0, upstream := [], strat := Strategy.simple,
    tickHandlers := 0, endTickHandlers := 0 }

/-- Modelled from the spec: EventHandler.prototype.subscribe is not under
src/; per spec section 4.1 it registers the source on the upstream list
and fails if already subscribed to that exact source identity. -/
def ehSubscribe (st : StreamSt) (s : Source) : Bool × StreamSt :=
  if st.upstream.any (fun t => t.id == s.id) then (false, st)
  else (true, { st with upstream := st.upstream ++ [s] })

/-- Modelled from the spec: EventHandler.prototype.unsubscribe is not
under src/; per spec sections 3 and 4.1 it removes the source from the
upstream registration list of currently-subscribed sources, returning
failure when the source is not subscribed. -/
def ehUnsubscribe (st : StreamSt) (s : Source) : Bool × StreamSt :=
  if st.upstream.any (fun t => t.id == s.id) then
    (true, { st with upstream := st.upstream.filter (fun t => !(t.id == s.id)) })
  else (false, st)

/-- createResolveStrategy (lines 116-248): fresh resolution state, and
one handler registered on each of the clock's tick and end tick
signals. -/
def activateResolve (st : StreamSt) : StreamSt :=
  { st with
    strat := Strategy.resolveStrat initR
    tickHandlers := st.tickHandlers + 1
    endTickHandlers := st.endTickHandlers + 1 }

/-- createSimpleStrategy (lines 92-114): re-installs the pass-through
handlers on the Stream's input channel.  It detaches the input-channel
handlers only; the source never deregisters the clock handlers that
createResolveStrategy registered, so the handler counts are unchanged. -/
def revertSimple (st : StreamSt) : StreamSt :=
  { st with strat := Strategy.simple }

/-- Stream.prototype.trigger: deliver a raw event to this Stream's input
channel, to be processed by whichever strategy is installed.  Under
Simple Relay the event is transformed and re-emitted with the same kind
(lines 92-114); under the Resolution Strategy it is processed by the
strategy's raw-event handler. -/
def streamTrigger (tr : Triggers) (st : StreamSt) (k : Kind) (d : Int) :
    StreamSt × List Out :=
  match st.strat with
  | Strategy.simple =>
      let f := match k with
        | Kind.set => tr.set
        | Kind.start => tr.start
        | Kind.update => tr.update
        | Kind.end_ => tr.end_
      (st, [Out.sem k (applyTr f d)])
  | Strategy.resolveStrat rst =>
      let p := step tr rst (InEv.raw k d)
      ({ st with strat := Strategy.resolveStrat p.2.1 }, p.1)

/-- Result of Stream.prototype.subscribe: the returned success flag, the
new Stream state, the raw events this call synthesized onto the input
channel, and the emissions produced while processing them. -/
structure SubRes where
  success : Bool
  st : StreamSt
  triggered : List (Kind × Int)
  outs : List Out
  deriving Repr

/-- Stream.prototype.subscribe (lines 253-264): channel subscribe, then
on success increment _numSources, switch to the Resolution Strategy when
it reaches two, and when the source is active trigger a synthetic start
carrying the source's current value. -/
def subscribe (tr : Triggers) (st : StreamSt) (s : Source) : SubRes :=
  let e := ehSubscribe st s
  if e.1 then
    let s1 := { e.2 with numSources := e.2.numSources + 1 }
    let s2 := if s1.numSources == 2 then activateResolve s1 else s1
    if s.isActive then
      let t := streamTrigger tr s2 Kind.start s.get
      ⟨true, t.1, [(Kind.start, s.get)], t.2⟩
    else ⟨true, s2, [], []⟩
  else ⟨false, e.2, [], []⟩

/-- Bookkeeping actions performed by Stream.prototype.unsubscribe on a
successful single-source unsubscribe, in execution order: the synthetic
end trigger, the _numSources decrement, and the revert to Simple
Relay. -/
inductive Act
  | trigEnd (v : Int)
  | decCount
  | revert
  deriving DecidableEq, Repr

/-- Result of a single-source Stream.prototype.unsubscribe: success
flag, new state, the bookkeeping actions in execution order, and the
emissions produced while processing the synthetic end. -/
structure UnsubRes where
  success : Bool
  st : StreamSt
  acts : List Act
  outs : List Out
  deriving Repr

/-- Stream.prototype.unsubscribe with a source argument (lines 275-284):
channel unsubscribe, then on success trigger a synthetic end carrying
the source's current value when the source is active, decrement
_numSources, and revert to Simple Relay when it reaches one. -/
def unsubscribeOne (tr : Triggers) (st : StreamSt) (s : Source) : UnsubRes :=
  let e := ehUnsubscribe st s
  if e.1 then
    let t : StreamSt × List Act × List Out :=
      if s.isActive then
        let p := streamTrigger tr e.2 Kind.end_ s.get
        (p.1, [Act.trigEnd s.get], p.2)
      else (e.2, [], [])
    let s1 := { t.1 with numSources := t.1.numSources - 1 }
    let s2 := if s1.numSources == 1 then revertSimple s1 else s1
    ⟨true, s2,
      t.2.1 ++ [Act.decCount] ++ (if s1.numSources == 1 then [Act.revert] else []),
      t.2.2⟩
  else ⟨false, e.2, [], []⟩

/-- The loop of Stream.prototype.unsubscribe with no argument (lines
267-273): for (i = 0; i < upstream.length; i++) unsubscribe(upstream[i]),
where upstream is the live, mutating registration list.  The fuel
argument bounds the iteration count; the loop body runs while the index
is below the CURRENT list length, exactly as in the source. -/
def unsubLoop (tr : Triggers) : Nat → StreamSt → Nat → StreamSt × List Out
  | 0, st, _ => (st, [])
  | fuel + 1, st, i =>
      if h : i < st.upstream.length then
        let s := st.upstream.get ⟨i, h⟩
        let u := unsubscribeOne tr st s
        let rest := unsubLoop tr fuel u.st (i + 1)
        (rest.1, u.outs ++ rest.2)
      else (st, [])

/-- Stream.prototype.unsubscribe with the source omitted: run the loop
(the index increments at most upstream.length times, since the list
never grows, so that fuel is exact) and return true. -/
def unsubscribeAll (tr : Triggers) (st : StreamSt) : Bool × StreamSt × List Out :=
  let r := unsubLoop tr st.upstream.length st 0
  (true, r.1, r.2)

/-
Helper lemmas about the Resolution Strategy machine.
-/

theorem semOut_append (a b : List Out) :
    semOut (a ++ b) = semOut a ++ semOut b := by
  induction a with
  | nil => rfl
  | cons x rest ih => cases x <;> simp [semOut, ih]

theorem countLock_append (a b : List Out) :
    countLock (a ++ b) = countLock a + countLock b := by
  induction a with
  | nil => simp [countLock]
  | cons x rest ih => cases x <;> simp [countLock, ih] <;> omega

theorem countUnlock_append (a b : List Out) :
    countUnlock (a ++ b) = countUnlock a + countUnlock b := by
  induction a with
  | nil => simp [countUnlock]
  | cons x rest ih => cases x <;> simp [countUnlock, ih] <;> omega

theorem chain1_state (st : RState) (d : Int) :
    (chain1 st d).2.locked = st.locked ∧
    (chain1 st d).2.lockCounter = st.lockCounter ∧
    (chain1 st d).2.hasSentLock = st.hasSentLock ∧
    (chain1 st d).2.end_ = st.end_ := by
  unfold chain1
  split <;> (try split) <;> (try split) <;> exact ⟨rfl, rfl, rfl, rfl⟩

theorem chain2_state (st : RState) (d : Int) :
    (chain2 st d).2.locked = st.locked ∧
    (chain2 st d).2.lockCounter = st.lockCounter ∧
    (chain2 st d).2.hasSentLock = st.hasSentLock := by
  unfold chain2
  split <;> (try split) <;> (try split) <;> (try split) <;> exact ⟨rfl, rfl, rfl⟩

theorem chain1_outs (st : RState) (d : Int) :
    (semOut (chain1 st d).1).length ≤ 1 ∧
    countLock (chain1 st d).1 = 0 ∧ countUnlock (chain1 st d).1 = 0 ∧
    ∀ p ∈ semOut (chain1 st d).1, p.1 ≠ Kind.end_ := by
  unfold chain1
  split <;> (try split) <;> (try split) <;>
    simp [semOut, countLock, countUnlock]

theorem chain2_outs (st : RState) (d : Int) :
    (semOut (chain2 st d).1).length ≤ 1 ∧
    countLock (chain2 st d).1 = 0 ∧ countUnlock (chain2 st d).1 = 0 := by
  unfold chain2
  split <;> (try split) <;> (try split) <;> (try split) <;>
    simp [semOut, countLock, countUnlock]

theorem chain2_noEnd (st : RState) (d : Int) (he : st.end_ = false) :
    ∀ p ∈ semOut (chain2 st d).1, p.1 ≠ Kind.end_ := by
  unfold chain2
  simp only [he]
  split <;> (try split) <;> (try split) <;> (try split) <;> simp_all [semOut]

/-- The unlockBelow prologue of resolve (lines 137-140), as used below. -/
theorem resolve_eq (st : RState) (d : Int) :
    resolve st d =
      (let p0 : List Out × RState :=
        if st.hasSentLock then ([Out.unlock], { st with hasSentLock := false })
        else ([], st)
      let c1 := chain1 p0.2 d
      let c2 := chain2 c1.2 d
      (p0.1 ++ c1.1 ++ c2.1,
       { c2.2 with start := false, update := false, end_ := false, set := false })) := rfl

theorem resolve_resets (st : RState) (d : Int) :
    (resolve st d).2.set = false ∧ (resolve st d).2.start = false ∧
    (resolve st d).2.update = false ∧ (resolve st d).2.end_ = false :=
  ⟨rfl, rfl, rfl, rfl⟩

theorem resolve_locked (st : RState) (d : Int) :
    (resolve st d).2.locked = st.locked := by
  unfold resolve
  dsimp only
  rw [(chain2_state _ _).1, (chain1_state _ _).1]
  split <;> rfl

theorem resolve_lockCounter (st : RState) (d : Int) :
    (resolve st d).2.lockCounter = st.lockCounter := by
  unfold resolve
  dsimp only
  rw [(chain2_state _ _).2.1, (chain1_state _ _).2.1]
  split <;> rfl

theorem resolve_hasSentLock (st : RState) (d : Int) :
    (resolve st d).2.hasSentLock = false := by
  unfold resolve
  dsimp only
  rw [(chain2_state _ _).2.2, (chain1_state _ _).2.2.1]
  split <;> simp_all

theorem resolve_sem_le (st : RState) (d : Int) :
    (semOut (resolve st d).1).length ≤ 2 := by
  rw [resolve_eq]
  dsimp only
  rw [semOut_append, semOut_append]
  have h1 := (chain1_outs (if st.hasSentLock then
    ([Out.unlock], { st with hasSentLock := false }) else ([], st)).2 d).1
  have h2 := (chain2_outs (chain1 (if st.hasSentLock then
    ([Out.unlock], { st with hasSentLock := false }) else ([], st)).2 d).2 d).1
  have h0 : semOut (if st.hasSentLock then
      ([Out.unlock], { st with hasSentLock := false }) else ([], st)).1 = [] := by
    split <;> rfl
  simp only [List.length_append, h0, List.length_nil]
  omega

theorem resolve_counts (st : RState) (d : Int) :
    countLock (resolve st d).1 = 0 ∧
    countUnlock (resolve st d).1 = (if st.hasSentLock then 1 else 0) := by
  rw [resolve_eq]
  dsimp only
  rw [countLock_append, countLock_append, countUnlock_append, countUnlock_append]
  have h1 := chain1_outs (if st.hasSentLock then
    ([Out.unlock], { st with hasSentLock := false }) else ([], st)).2 d
  have h2 := chain2_outs (chain1 (if st.hasSentLock then
    ([Out.unlock], { st with hasSentLock := false }) else ([], st)).2 d).2 d
  rw [h1.2.1, h1.2.2.1, h2.2.1, h2.2.2]
  constructor
  · split <;> simp [countLock]
  · split <;> simp [countUnlock]

theorem resolve_noEnd (st : RState) (d : Int) (he : st.end_ = false) :
    ∀ p ∈ semOut (resolve st d).1, p.1 ≠ Kind.end_ := by
  rw [resolve_eq]
  dsimp only
  rw [semOut_append, semOut_append]
  intro p hp
  have h0 : semOut (if st.hasSentLock then
      ([Out.unlock], { st with hasSentLock := false }) else ([], st)).1 = [] := by
    split <;> rfl
  rw [h0] at hp
  simp only [List.nil_append, List.mem_append] at hp
  rcases hp with hp | hp
  · exact (chain1_outs _ d).2.2.2 p hp
  · apply chain2_noEnd _ d _ p hp
    rw [(chain1_state _ _).2.2.2]
    have hpe : (if st.hasSentLock then
        ([Out.unlock], { st with hasSentLock := false }) else ([], st)).2.end_ = st.end_ := by
      split <;> rfl
    rw [hpe, he]

theorem resolve_nil_of_flags (st : RState) (d : Int)
    (h1 : st.set = false) (h2 : st.start = false)
    (h3 : st.update = false) (h4 : st.end_ = false) :
    semOut (resolve st d).1 = [] := by
  obtain ⟨ht, sc, hsl, hr, lk, lc, fset, fstart, fupd, fend, pv, ca⟩ := st
  simp only at h1 h2 h3 h4
  subst h1 h2 h3 h4
  cases hsl <;> simp [resolve, chain1, chain2, semOut]

theorem delay_locked (st : RState) (d : Int) :
    (delay st d).2.1.locked = st.locked := by
  unfold delay
  dsimp only
  cases hs : st.hasSentLock <;>
    simp only [hs, Bool.not_true, Bool.not_false, if_true, if_false,
      Bool.false_eq_true, ite_false, ite_true] <;>
    split <;> (try rw [resolve_locked]) <;> rfl

theorem delay_lockCounter (st : RState) (d : Int) :
    (delay st d).2.1.lockCounter = st.lockCounter := by
  unfold delay
  dsimp only
  cases hs : st.hasSentLock <;>
    simp only [hs, Bool.not_true, Bool.not_false, if_true, if_false,
      Bool.false_eq_true, ite_false, ite_true] <;>
    split <;> (try rw [resolve_lockCounter]) <;> rfl

theorem delay_count_of_locked (st : RState) (d : Int) (h : st.locked = true) :
    (delay st d).2.2 = 0 := by
  unfold delay
  dsimp only
  cases hs : st.hasSentLock <;> simp [hs, h]

/-- The suppression invariant of the locking handshake: whenever the
reference count of Lock signals received from downstream is positive,
the locked flag is set. -/
def lockedInv (st : RState) : Prop := 0 < st.lockCounter → st.locked = true

theorem step_inv (tr : Triggers) (st : RState) (i : InEv) (h : lockedInv st) :
    lockedInv (step tr st i).2.1 := by
  cases i with
  | raw k d =>
      cases k <;>
        (intro hc
         rw [step, delay_lockCounter] at hc
         rw [step, delay_locked]
         exact h hc)
  | lockBelow => intro hc; rfl
  | unlockBelow =>
      intro hc
      simp only [step] at hc ⊢
      have hne : (st.lockCounter - 1 == 0) = false := by
        simp only [beq_eq_false_iff_ne, ne_eq]
        omega
      simp only [hne, Bool.false_eq_true, if_false]
      exact h (by omega)
  | tick =>
      simp only [step]
      split
      · dsimp only
        intro hc
        rw [resolve_lockCounter] at hc
        rw [resolve_locked]
        exact h hc
      · intro hc
        exact h hc
  | endTick => intro hc; exact h hc

theorem run_inv (tr : Triggers) (ins : List InEv) :
    lockedInv (run tr initR ins).2.1 := by
  have base : lockedInv initR := by intro hc; simp [initR] at hc
  have general : ∀ (st : RState), lockedInv st → lockedInv (run tr st ins).2.1 := by
    induction ins with
    | nil => intro st hst; exact hst
    | cons i is ih => intro st hst; exact ih _ (step_inv tr st i hst)
  exact general initR base

theorem step_count_of_locked (tr : Triggers) (st : RState) (i : InEv)
    (h : st.locked = true) : (step tr st i).2.2 = 0 := by
  cases i with
  | raw k d => cases k <;> exact delay_count_of_locked _ _ h
  | lockBelow => rfl
  | unlockBelow => rfl
  | tick => simp [step, h]
  | endTick => rfl

/-- The number of Lock signals this Stream has sent downstream and not
yet matched with an Unlock: one while hasSentLock is set, else zero. -/
def outstanding (st : RState) : Nat := if st.hasSentLock then 1 else 0

theorem delay_balance (st : RState) (d : Int) :
    countLock (delay st d).1 + outstanding st =
      countUnlock (delay st d).1 + outstanding (delay st d).2.1 := by
  unfold delay
  dsimp only
  cases hs : st.hasSentLock <;>
    simp only [hs, Bool.not_true, Bool.not_false, if_true, if_false,
      Bool.false_eq_true, ite_false, ite_true] <;>
    split <;>
    simp [countLock_append, countUnlock_append, countLock, countUnlock,
      outstanding, (resolve_counts _ _).1, (resolve_counts _ _).2,
      resolve_hasSentLock, hs, (chain1_outs _ _).2.1, (chain1_outs _ _).2.2.1,
      (chain2_outs _ _).2.1, (chain2_outs _ _).2.2]

theorem step_balance (tr : Triggers) (st : RState) (i : InEv) :
    countLock (step tr st i).1 + outstanding st =
      countUnlock (step tr st i).1 + outstanding (step tr st i).2.1 := by
  cases i with
  | raw k d => cases k <;> exact delay_balance _ _
  | lockBelow => rfl
  | unlockBelow => rfl
  | tick =>
      simp only [step]
      split
      · dsimp only
        simp [(resolve_counts _ _).1, (resolve_counts _ _).2,
          resolve_hasSentLock, outstanding]
      · rfl
  | endTick => rfl

theorem run_balance (tr : Triggers) (ins : List InEv) : ∀ (st : RState),
    countLock (run tr st ins).1 + outstanding st =
      countUnlock (run tr st ins).1 + outstanding (run tr st ins).2.1 := by
  induction ins with
  | nil => intro st; rfl
  | cons i is ih =>
      intro st
      simp only [run]
      rw [countLock_append, countUnlock_append]
      have h1 := step_balance tr st i
      have h2 := ih (step tr st i).2.1
      omega

theorem delay_end_false (st : RState) (d : Int) (h : st.end_ = false) :
    (delay st d).2.1.end_ = false := by
  unfold delay
  dsimp only
  cases hs : st.hasSentLock <;>
    simp only [hs, Bool.not_true, Bool.not_false, if_true, if_false,
      Bool.false_eq_true, ite_false, ite_true] <;>
    split <;>
    first
    | exact (resolve_resets _ _).2.2.2
    | exact h

/-
Claim theorems.
-/

/-- C1 counterexample: starting from a fresh Resolution Strategy, deliver
the raw events Start(1) then Update(2) within one tick (before the clock
tick), then let the tick run resolve once.  That single invocation of
resolve emits two composite semantic events (Start then Update), not
exactly zero or one as the claim states. -/
theorem C1_counterexample :
    (semOut (step tr0 (run tr0 initR
      [InEv.raw Kind.start 1, InEv.raw Kind.update 2]).2.1 InEv.tick).1).length = 2 := by
  decide

/-- C1 (amended): for every sequence of raw events delivered within one
tick, a single invocation of resolve emits at most two composite
semantic events on the Stream's output — the source evaluates the
decision rules as two separate first-match if-chains in sequence
(rules 1-3, then rules 4-7 on the updated flags), and both chains may
emit in the same invocation. -/
theorem C1_resolve_emits_at_most_two (st : RState) (d : Int) :
    (semOut (resolve st d).1).length ≤ 2 :=
  resolve_sem_le st d

/-- The state of the two-source Stream of claim C2 just before the
tick-2 resolve: tick 1 delivered Start(1) from source A and resolved,
tick 2 delivered Update(2) from A then Start(10) from B. -/
def c2pre : RState :=
  (run tr0 initR [InEv.raw Kind.start 1, InEv.tick, InEv.endTick,
    InEv.raw Kind.update 2, InEv.raw Kind.start 10]).2.1

/-- C2 counterexample: in the scenario of the claim (tick 1: A emits
Start(1), S resolves to Start(1); tick 2: A emits Update(2) and B emits
Start(10) before S resolves), the tick-2 resolve does not emit Start(10)
as its single composite event. -/
theorem C2_counterexample :
    ¬ semOut (step tr0 c2pre InEv.tick).1 = [(Kind.start, 10)] := by decide

/-- C2 (amended): in that scenario the tick-1 resolve emits exactly
Start(1), and the tick-2 resolve emits Start(10) immediately followed by
Update(10) — Start(10) is its first composite event but not its only
one. -/
theorem C2_tick2_emits_start_then_update :
    semOut (run tr0 initR [InEv.raw Kind.start 1, InEv.tick]).1 = [(Kind.start, 1)] ∧
    semOut (step tr0 c2pre InEv.tick).1 = [(Kind.start, 10), (Kind.update, 10)] := by
  decide

/-- C3: resolution never executes while lockDepth (the lockCounter,
incremented on each lockBelow received and decremented on each
unlockBelow) is positive: in every state reachable from a fresh
Resolution Strategy, if lockCounter is positive then no incoming event —
neither a clock tick nor a newly received raw event — invokes resolve. -/
theorem C3_no_resolve_while_locked (tr : Triggers) (ins : List InEv) (i : InEv)
    (h : 0 < (run tr initR ins).2.1.lockCounter) :
    (step tr (run tr initR ins).2.1 i).2.2 = 0 :=
  step_count_of_locked tr _ i (run_inv tr ins h)

/-- C3 witness: after receiving one lockBelow, lockCounter is positive
and a clock tick performs no resolution. -/
theorem C3_witness :
    0 < (run tr0 initR [InEv.lockBelow]).2.1.lockCounter ∧
    (step tr0 (run tr0 initR [InEv.lockBelow]).2.1 InEv.tick).2.2 = 0 :=
  ⟨by decide, C3_no_resolve_while_locked tr0 [InEv.lockBelow] InEv.tick (by decide)⟩

/-- C4: the Lock/Unlock handshake never leaks: over any input sequence
from a fresh Resolution Strategy, the number of lockBelow emissions
equals the number of unlockBelow emissions plus the single outstanding
Lock recorded by hasSentLock (so at most one Lock is outstanding per
accumulation phase); moreover each resolve emits exactly one unlockBelow
when a Lock is outstanding and none otherwise, emits no lockBelow, and
clears hasSentLock. -/
theorem C4_lock_unlock_balance (tr : Triggers) (ins : List InEv)
    (st : RState) (d : Int) :
    countLock (run tr initR ins).1 =
      countUnlock (run tr initR ins).1 + outstanding (run tr initR ins).2.1 ∧
    countUnlock (resolve st d).1 = outstanding st ∧
    countLock (resolve st d).1 = 0 ∧
    (resolve st d).2.hasSentLock = false := by
  refine ⟨?_, ?_, (resolve_counts st d).1, resolve_hasSentLock st d⟩
  · have h := run_balance tr ins initR
    have h0 : outstanding initR = 0 := rfl
    omega
  · rw [(resolve_counts st d).2]; rfl

/-- C5: resolving twice with no new raw input in between emits no
semantic event the second time, because the first resolve leaves all
four pending flags false. -/
theorem C5_second_resolve_emits_nothing (st : RState) (d d2 : Int) :
    semOut (resolve (resolve st d).2 d2).1 = [] ∧
    ((resolve st d).2.set = false ∧ (resolve st d).2.start = false ∧
     (resolve st d).2.update = false ∧ (resolve st d).2.end_ = false) := by
  refine ⟨?_, resolve_resets st d⟩
  have h := resolve_resets st d
  exact resolve_nil_of_flags _ d2 h.1 h.2.1 h.2.2.1 h.2.2.2

/-- C10: every invocation of resolve resets all four pending flags
before returning (whether or not it emitted); an End emission requires
the pending end flag, so no End is emitted by a resolve whose state has
end false; and a raw event of any other kind leaves the end flag
false — hence a pending End never survives a resolve, and a later
resolve emits End only if a new raw End arrived first. -/
theorem C10_resolve_resets_flags (st : RState) (d : Int) :
    ((resolve st d).2.set = false ∧ (resolve st d).2.start = false ∧
     (resolve st d).2.update = false ∧ (resolve st d).2.end_ = false) ∧
    (st.end_ = false → ∀ p ∈ semOut (resolve st d).1, p.1 ≠ Kind.end_) ∧
    (∀ (tr : Triggers) (k : Kind) (d2 : Int), k ≠ Kind.end_ → st.end_ = false →
      (step tr st (InEv.raw k d2)).2.1.end_ = false) := by
  refine ⟨resolve_resets st d, resolve_noEnd st d, ?_⟩
  intro tr k d2 hk he
  cases k with
  | set => exact delay_end_false _ _ he
  | start => exact delay_end_false _ _ he
  | update => exact delay_end_false _ _ he
  | end_ => exact absurd rfl hk

/-- C10 witness: concrete instances of the three parts at the fresh
state with payload 0, and a raw Update after which the end flag is still
false. -/
theorem C10_witness :
    ((resolve initR 0).2.set = false ∧ (resolve initR 0).2.start = false ∧
     (resolve initR 0).2.update = false ∧ (resolve initR 0).2.end_ = false) ∧
    (∀ p ∈ semOut (resolve initR 0).1, p.1 ≠ Kind.end_) ∧
    (step tr0 initR (InEv.raw Kind.update 3)).2.1.end_ = false :=
  ⟨(C10_resolve_resets_flags initR 0).1,
   (C10_resolve_resets_flags initR 0).2.1 (by decide),
   (C10_resolve_resets_flags initR 0).2.2 tr0 Kind.update 3 (by decide) (by decide)⟩

/-- C6: for every Stream state and every source that is active at
subscription time, a successful subscribe synthesizes exactly one raw
event onto the Stream's input — a Start carrying the source's current
value — so no Update or End is interleaved before it. -/
theorem C6_subscribe_active_start (tr : Triggers) (st : StreamSt) (s : Source)
    (hsuc : (subscribe tr st s).success = true) (ha : s.isActive = true) :
    (subscribe tr st s).triggered = [(Kind.start, s.get)] := by
  unfold subscribe at hsuc ⊢
  cases he : (ehSubscribe st s).1 <;> simp [he, ha] at hsuc ⊢

/-- A concrete mid-sequence source with current value 42. -/
def srcActive : Source := ⟨5, true, 42⟩

/-- C6 witness: subscribing srcActive to a fresh Stream succeeds and
synthesizes exactly the Start trigger carrying 42. -/
theorem C6_witness :
    (subscribe tr0 emptyStream srcActive).success = true ∧
    srcActive.isActive = true ∧
    (subscribe tr0 emptyStream srcActive).triggered = [(Kind.start, srcActive.get)] :=
  ⟨by decide, by decide,
   C6_subscribe_active_start tr0 emptyStream srcActive (by decide) (by decide)⟩

/-- C7: for every Stream state and every subscribed source that is
active, a successful single-source unsubscribe performs the synthetic
End trigger carrying the source's current value as its first
bookkeeping action, before the _numSources decrement (and therefore
before any strategy revert, which comes after the decrement). -/
theorem C7_unsubscribe_active_end (tr : Triggers) (st : StreamSt) (s : Source)
    (hsuc : (unsubscribeOne tr st s).success = true) (ha : s.isActive = true) :
    (unsubscribeOne tr st s).acts.head? = some (Act.trigEnd s.get) ∧
    (unsubscribeOne tr st s).acts.tail.head? = some Act.decCount := by
  unfold unsubscribeOne at hsuc ⊢
  cases he : (ehUnsubscribe st s).1 <;> simp [he, ha] at hsuc ⊢

/-- A Stream that has subscribed the active source srcActive. -/
def stWithActive : StreamSt := (subscribe tr0 emptyStream srcActive).st

/-- C7 witness: unsubscribing the active source from that Stream
performs the End trigger carrying 42 first, then the decrement. -/
theorem C7_witness :
    (unsubscribeOne tr0 stWithActive srcActive).acts.head?
      = some (Act.trigEnd srcActive.get) ∧
    (unsubscribeOne tr0 stWithActive srcActive).acts.tail.head?
      = some Act.decCount :=
  C7_unsubscribe_active_end tr0 stWithActive srcActive (by decide) (by decide)

/-- First inactive source. -/
def srcA : Source := ⟨0, false, 0⟩

/-- Second inactive source. -/
def srcB : Source := ⟨1, false, 0⟩

/-- A Stream with srcA and srcB subscribed, in that order, so the
Resolution Strategy is active. -/
def twoSubStream : StreamSt :=
  (subscribe tr0 (subscribe tr0 emptyStream srcA).st srcB).st

/-- The Stream after unsubscribing srcB again (reverting to Simple
Relay). -/
def revertedStream : StreamSt := (unsubscribeOne tr0 twoSubStream srcB).st

/-- C8 at the failing input: activating the Resolution Strategy (second
subscription) registers exactly one tick and one end tick handler, but
reverting to Simple Relay deregisters neither (createSimpleStrategy only
detaches input-channel handlers, lines 92-114), so a further
re-activation accumulates a second handler of each. -/
theorem C8_clock_handler_leak :
    (twoSubStream.tickHandlers = 1 ∧ twoSubStream.endTickHandlers = 1) ∧
    revertedStream.strat = Strategy.simple ∧
    (revertedStream.tickHandlers = 1 ∧ revertedStream.endTickHandlers = 1) ∧
    ((subscribe tr0 revertedStream srcB).st.tickHandlers = 2 ∧
     (subscribe tr0 revertedStream srcB).st.endTickHandlers = 2) := by decide

/-- C9 at the failing input: with two subscribed sources, unsubscribe
with no argument returns true but unsubscribes only the first source —
the loop index advances while the live upstream list shrinks, so srcB
is skipped and remains subscribed. -/
theorem C9_unsubscribe_all_skips :
    (unsubscribeAll tr0 twoSubStream).1 = true ∧
    (unsubscribeAll tr0 twoSubStream).2.1.upstream = [srcB] ∧
    (unsubscribeAll tr0 twoSubStream).2.1.numSources = 1 := by decide
